import Mathlib

/-!
Verification development for the BoatId mobile client.

The definitions below are a shallow embedding of the TypeScript sources:
* src/frontend/src/services/httpClient.ts (HttpClient, BoatApiService)
* src/frontend/App.tsx (App component: handlers and in-memory state)
* src/hooks/useCameraIdentification (the capture-and-identify hook)

JavaScript strings are modelled as Lean String, JavaScript numbers that the
code only uses as non-negative integers as Nat, optional fields as Option,
thrown errors as Except.error, and the UI event loop as an explicit step
relation on an application-state type.
-/

namespace BoatId

/-! ## JavaScript primitives used by the sources -/

/-- Truthiness-based defaulting, modelling the JavaScript expression
x || fallback for an optional string x: undefined and the empty
string are falsy, every other string is returned as is. -/
def jsOr (x : Option String) (fallback : String) : String :=
  match x with
  | some s => if s = "" then fallback else s
  | none => fallback

/-- JavaScript Boolean.prototype.toString. -/
def boolToStr : Bool → String
  | true => "true"
  | false => "false"

/-- Models endpoint.startsWith ⟨slash⟩ from httpClient.ts, line 5:
true exactly when the first character is the slash. -/
def startsWithSlash (s : String) : Bool :=
  match s.data with
  | [] => false
  | c :: _ => c = '/'

/-- Models endpoint.slice(1): the string without its first character. -/
def sliceOne (s : String) : String :=
  ⟨s.data.drop 1⟩

/-- The whitespace class of JavaScript String.prototype.trim:
tab through carriage return, space, NBSP, BOM and the Unicode
space separators and line/paragraph separators. -/
def isJsSpace (c : Char) : Bool :=
  (9 ≤ c.toNat && c.toNat ≤ 13) || c = ' ' || c.toNat = 160 || c.toNat = 0xfeff ||
  c.toNat = 0x1680 || (0x2000 ≤ c.toNat && c.toNat ≤ 0x200a) ||
  c.toNat = 0x2028 || c.toNat = 0x2029 || c.toNat = 0x202f ||
  c.toNat = 0x205f || c.toNat = 0x3000

/-- JavaScript String.prototype.trim: remove the longest run of whitespace
characters from each end of the string. -/
def jsTrim (s : String) : String :=
  ⟨(((s.data.dropWhile isJsSpace).reverse.dropWhile isJsSpace).reverse : List Char)⟩

/-! ## HttpClient (src/frontend/src/services/httpClient.ts) -/

/-- The fields the error-handling path of HttpClient.makeRequest reads from
a parsed JSON error body: errorData.detail and errorData.message,
each possibly absent. -/
structure ErrorBody where
  detail : Option String
  message : Option String
deriving DecidableEq, Repr

/-- An HTTP response as makeRequest observes it: status code, reason phrase,
the raw success body, and the outcome of response.json() on the error
path (none when the body does not parse as JSON). -/
structure HttpResponse where
  status : Nat
  statusText : String
  body : String
  errorBody : Option ErrorBody
deriving DecidableEq, Repr

/-- response.ok of the fetch API: status in the range 200-299. -/
def responseOk (r : HttpResponse) : Bool :=
  200 ≤ r.status && r.status ≤ 299

/-- The default error message of makeRequest, line 10:
HTTP status colon statusText. -/
def statusLine (r : HttpResponse) : String :=
  "HTTP " ++ Nat.repr r.status ++ ": " ++ r.statusText

/-- The error message makeRequest throws on a non-success status,
lines 10-13: errorData.detail || errorData.message || statusLine when the
body parses as JSON, and the status line when parsing fails. -/
def errorMessageOf (r : HttpResponse) : String :=
  match r.errorBody with
  | none => statusLine r
  | some b => jsOr b.detail (jsOr b.message (statusLine r))

/-- URL construction of makeRequest, line 5: the base, one slash, and the
endpoint with a single leading slash stripped. -/
def buildUrl (base endpoint : String) : String :=
  base ++ "/" ++ (if startsWithSlash endpoint then sliceOne endpoint else endpoint)

/-- Response handling of HttpClient.makeRequest, lines 7-20: on a success
status return the parsed body, otherwise throw the extracted error
message. -/
def makeRequest (r : HttpResponse) : Except String String :=
  if responseOk r then Except.ok r.body else Except.error (errorMessageOf r)

/-- A multipart form-data value: either the React-Native file object
appended for the image, or a plain string field. -/
inductive FormValue where
  | file (uri : String) (type : String) (name : String)
  | str (s : String)
deriving DecidableEq, Repr

/-- An outgoing request as the client wrapper builds it. -/
structure Request where
  method : String
  url : String
  jsonBody : Option String
  formBody : Option (List (String × FormValue))
deriving DecidableEq, Repr

/-- HttpClient.get: a GET request to the joined URL; the response is then
processed by makeRequest. -/
def HttpClient.get (base endpoint : String) (r : HttpResponse) :
    Request × Except String String :=
  (⟨"GET", buildUrl base endpoint, none, none⟩, makeRequest r)

/-- HttpClient.post: a POST with a JSON body; the response is then processed
by makeRequest. -/
def HttpClient.post (base endpoint : String) (body : String) (r : HttpResponse) :
    Request × Except String String :=
  (⟨"POST", buildUrl base endpoint, some body, none⟩, makeRequest r)

/-- HttpClient.uploadFile: a POST with a multipart form body; the response
is then processed by makeRequest. -/
def HttpClient.uploadFile (base endpoint : String) (formData : List (String × FormValue))
    (r : HttpResponse) : Request × Except String String :=
  (⟨"POST", buildUrl base endpoint, none, some formData⟩, makeRequest r)

/-! ## Query-string building (BoatApiService) -/

/-- One hexadecimal digit, upper case, as percent-encoding prints it. -/
def hexDigit (n : Nat) : Char :=
  if n < 10 then Char.ofNat (48 + n) else Char.ofNat (55 + n)

/-- The UTF-8 bytes of a character. -/
def utf8Bytes (c : Char) : List Nat :=
  let n := c.toNat
  if n < 0x80 then [n]
  else if n < 0x800 then [0xc0 + n / 64, 0x80 + n % 64]
  else if n < 0x10000 then [0xe0 + n / 4096, 0x80 + n / 64 % 64, 0x80 + n % 64]
  else [0xf0 + n / 262144, 0x80 + n / 4096 % 64, 0x80 + n / 64 % 64, 0x80 + n % 64]

/-- Percent-encoding of one byte. -/
def percentByte (b : Nat) : String :=
  "%" ++ String.singleton (hexDigit (b / 16)) ++ String.singleton (hexDigit (b % 16))

/-- The characters application/x-www-form-urlencoded leaves unescaped. -/
def isUnreserved (c : Char) : Bool :=
  c.isAlphanum || c = '*' || c = '-' || c = '.' || c = '_'

/-- URLSearchParams encoding of one character: unreserved characters stand
for themselves, space becomes plus, everything else is percent-encoded
byte by byte. -/
def encodeChar (c : Char) : String :=
  if isUnreserved c then String.singleton c
  else if c = ' ' then "+"
  else String.join ((utf8Bytes c).map percentByte)

/-- URLSearchParams encoding of a whole string. -/
def formEncode (s : String) : String :=
  String.join (s.data.map encodeChar)

/-- URLSearchParams.toString: key equals value pairs joined by ampersands. -/
def renderQuery (ps : List (String × String)) : String :=
  String.intercalate "&" (ps.map fun p => formEncode p.1 ++ "=" ++ formEncode p.2)

/-- The confidence filter type of getIdentifications: the literal union
high, medium, low. -/
inductive Confidence where
  | high
  | medium
  | low
deriving DecidableEq, Repr

/-- The query-string value of a confidence literal. -/
def Confidence.toStr : Confidence → String
  | .high => "high"
  | .medium => "medium"
  | .low => "low"

/-- The filters argument of BoatApiService.getIdentifications; every field
optional, matching the TypeScript object type. -/
structure Filters where
  isBoat : Option Bool
  make : Option String
  boatType : Option String
  confidence : Option Confidence
deriving DecidableEq, Repr

/-- The query parameters getIdentifications builds, lines 188-197 of
httpClient.ts: page and per_page always; is_boat whenever the filter is
defined (so also for false); make and boat_type only when the string
filter is truthy, which excludes the empty string; confidence whenever
the filter is provided. -/
def getIdentificationsParams (page perPage : Nat) (f : Filters) : List (String × String) :=
  [("page", Nat.repr page), ("per_page", Nat.repr perPage)] ++
  (match f.isBoat with
   | some b => [("is_boat", boolToStr b)]
   | none => []) ++
  (match f.make with
   | some s => if s = "" then [] else [("make", s)]
   | none => []) ++
  (match f.boatType with
   | some s => if s = "" then [] else [("boat_type", s)]
   | none => []) ++
  (match f.confidence with
   | some c => [("confidence", c.toStr)]
   | none => [])

/-- The endpoint string getIdentifications passes to HttpClient.get. -/
def getIdentificationsEndpoint (page perPage : Nat) (f : Filters) : String :=
  "boats/identifications?" ++ renderQuery (getIdentificationsParams page perPage f)

/-- BoatApiService.getIdentifications as a request: a GET to the
identifications endpoint with the serialized query string. -/
def getIdentifications (base : String) (page perPage : Nat) (f : Filters) : Request :=
  ⟨"GET", buildUrl base (getIdentificationsEndpoint page perPage f), none, none⟩

/-- The query parameters searchBoats builds, line 213 of httpClient.ts:
q is the trimmed query, limit is always present. -/
def searchBoatsParams (query : String) (limit : Nat) : List (String × String) :=
  [("q", jsTrim query), ("limit", Nat.repr limit)]

/-- The endpoint string searchBoats passes to HttpClient.get. -/
def searchBoatsEndpoint (query : String) (limit : Nat) : String :=
  "boats/search?" ++ renderQuery (searchBoatsParams query limit)

/-- BoatApiService.searchBoats as a request: a GET to the search endpoint.
The TypeScript signature gives limit the default value 50. -/
def searchBoats (base : String) (query : String) (limit : Nat) : Request :=
  ⟨"GET", buildUrl base (searchBoatsEndpoint query limit), none, none⟩

/-- searchBoats called without an explicit limit: the default parameter
value 50 is used. -/
def searchBoatsDefault (base : String) (query : String) : Request :=
  searchBoats base query 50

/-! ## Multipart upload (BoatApiService.createFormData, identifyBoat) -/

/-- Models the filename sanitisation of createFormData: every colon and
full stop of the ISO timestamp replaced by a dash. -/
def sanitizeTimestamp (ts : String) : String :=
  ⟨ts.data.map fun c => if c = ':' ∨ c = '.' then '-' else c⟩

/-- BoatApiService.createFormData, lines 135-155 of httpClient.ts: the form
fields appended, in order - the image file object, the requested fields
joined with commas, and the store flag rendered as a string. The
timestamp is the current time, passed here as a parameter. -/
def createFormData (imageUri ts : String) (requestedFields : List String)
    (storeResults : Bool) : List (String × FormValue) :=
  [("image", FormValue.file imageUri "image/jpeg"
      ("boat_image_" ++ sanitizeTimestamp ts ++ ".jpg")),
   ("requested_fields", FormValue.str (String.intercalate "," requestedFields)),
   ("store_results", FormValue.str (boolToStr storeResults))]

/-- BoatApiService.identifyBoat, lines 167-174: build the form data and
upload it with HttpClient.uploadFile to boats/identify. -/
def identifyBoat (base imageUri ts : String) (requestedFields : List String)
    (storeResults : Bool) : Request :=
  ⟨"POST", buildUrl base "boats/identify", none,
    some (createFormData imageUri ts requestedFields storeResults)⟩

/-! ## Domain data model (boatApi.ts interfaces) -/

/-- The BoatDetails interface: every field optional. -/
structure BoatDetails where
  make : Option String
  model : Option String
  description : Option String
  year : Option String
  length : Option String
  boat_type : Option String
  hull_material : Option String
  features : Option (List String)
deriving DecidableEq, Repr

/-- The BoatIdentificationResponse interface. -/
structure BoatIdentificationResponse where
  success : Bool
  identification_id : Option Nat
  filename : String
  is_boat : Bool
  boat_details : Option BoatDetails
  confidence : Option String
  message : Option String
deriving DecidableEq, Repr

/-- Models the optional chain details?.f on a response r: none when
boat_details is absent, otherwise the field itself. -/
def detailOf (r : BoatIdentificationResponse) (f : BoatDetails → Option String) :
    Option String :=
  match r.boat_details with
  | some d => f d
  | none => none

/-! ## Alert rendering (App.tsx, handleCameraPress and
handleIdentificationPress) -/

/-- The Make slot of the success alert: details?.make || Unknown. -/
def cameraMake (r : BoatIdentificationResponse) : String :=
  jsOr (detailOf r BoatDetails.make) "Unknown"

/-- The Model slot of the success alert. -/
def cameraModel (r : BoatIdentificationResponse) : String :=
  jsOr (detailOf r BoatDetails.model) "Unknown"

/-- The Type slot of the success alert. -/
def cameraType (r : BoatIdentificationResponse) : String :=
  jsOr (detailOf r BoatDetails.boat_type) "Unknown"

/-- The Year slot of the success alert. -/
def cameraYear (r : BoatIdentificationResponse) : String :=
  jsOr (detailOf r BoatDetails.year) "Unknown"

/-- The Confidence slot of the success alert. -/
def cameraConfidence (r : BoatIdentificationResponse) : String :=
  jsOr r.confidence "Unknown"

/-- The description slot of the success alert, App.tsx line 60:
details?.description || the empty string. -/
def cameraDescription (r : BoatIdentificationResponse) : String :=
  jsOr (detailOf r BoatDetails.description) ""

/-- The full success-alert message of handleCameraPress: the template
string, trimmed. -/
def cameraSuccessMessage (r : BoatIdentificationResponse) : String :=
  jsTrim ("\nBoat Identified! 🚤\n\nMake: " ++ cameraMake r ++
    "\nModel: " ++ cameraModel r ++ "\nType: " ++ cameraType r ++
    "\nYear: " ++ cameraYear r ++ "\nConfidence: " ++ cameraConfidence r ++
    "\n\n" ++ cameraDescription r)

/-- The Make slot of the last-identification alert of
handleIdentificationPress. -/
def histMake (r : BoatIdentificationResponse) : String :=
  jsOr (detailOf r BoatDetails.make) "Unknown"

/-- The Model slot of the last-identification alert. -/
def histModel (r : BoatIdentificationResponse) : String :=
  jsOr (detailOf r BoatDetails.model) "Unknown"

/-- The Type slot of the last-identification alert. -/
def histType (r : BoatIdentificationResponse) : String :=
  jsOr (detailOf r BoatDetails.boat_type) "Unknown"

/-- The Description slot of the last-identification alert, App.tsx line 91:
details?.description || No description. -/
def histDescription (r : BoatIdentificationResponse) : String :=
  jsOr (detailOf r BoatDetails.description) "No description"

/-- The Confidence slot of the last-identification alert. -/
def histConfidence (r : BoatIdentificationResponse) : String :=
  jsOr r.confidence "Unknown"

/-- The ID slot of the last-identification alert:
identification_id || Not stored, with JavaScript numeric truthiness,
so the id 0 also falls back. -/
def histId (r : BoatIdentificationResponse) : String :=
  match r.identification_id with
  | some n => if n = 0 then "Not stored" else Nat.repr n
  | none => "Not stored"

/-! ## The capture-and-identify hook and the application shell -/

/-- The state owned by useCameraIdentification: the processing flag and the
most recent result. -/
structure HookState where
  isProcessing : Bool
  lastResult : Option BoatIdentificationResponse
deriving DecidableEq, Repr

/-- useCameraIdentification.captureAndIdentify as a state transformer. Its
environment is the camera outcome (none when no image was captured) and
the outcome of BoatApiService.identifyBoat. The flag is set at entry and
reset in the finally block on every path; lastResult is written only
after a successful identification; every failure is rethrown. -/
def captureAndIdentify (st : HookState) (camera : Option String)
    (api : Except String BoatIdentificationResponse) :
    Except String BoatIdentificationResponse × HookState :=
  match camera with
  | none => (Except.error "No image captured", ⟨false, st.lastResult⟩)
  | some _ =>
    match api with
    | Except.error e => (Except.error e, ⟨false, st.lastResult⟩)
    | Except.ok r => (Except.ok r, ⟨false, some r⟩)

/-- The state of the App component together with the hook state it embeds:
the in-memory identification history plus the hook fields. -/
structure AppState where
  hook : HookState
  history : List BoatIdentificationResponse
deriving DecidableEq, Repr

/-- App.handleCameraPress as a state transformer: run captureAndIdentify;
on success prepend the result to the history; on failure catch the
rethrown error and leave the history alone. -/
def handleCameraPress (st : AppState) (camera : Option String)
    (api : Except String BoatIdentificationResponse) : AppState :=
  match captureAndIdentify st.hook camera api with
  | (Except.ok r, hook) => ⟨hook, r :: st.history⟩
  | (Except.error _, hook) => ⟨hook, st.history⟩

/-- A whole sequence of successful capture-and-identify interactions, oldest
first, applied to a starting state. -/
def applySuccesses (st : AppState) (rs : List BoatIdentificationResponse) : AppState :=
  rs.foldl (fun s r => handleCameraPress s (some "uri") (Except.ok r)) st

/-! ## The UI event loop as a step relation -/

/-- The observable upload state of the running app: the isProcessing flag
and how many uploads are in flight. -/
structure UiState where
  isProcessing : Bool
  inFlight : Nat
deriving DecidableEq, Repr

/-- User-triggered steps of the event loop. App.tsx passes disabled as
isProcessing to both capture controls, but FeatureItem.tsx declares no
disabled prop (FeatureItemProps is icon, title, onPress only) and wires
its TouchableOpacity without one, so the Identify Boat row always fires
handleCameraPress: pressFeatureItem is unguarded. The Button component
is not among the sources; modelled from the spec: the upload is guarded
by a UI-disabled state, so pressButton fires only while isProcessing is
false. Either press starts an upload, with captureAndIdentify raising
the flag at entry; a completion (success or failure) of an in-flight
upload resets the flag in the finally block. -/
inductive Step : UiState → UiState → Prop
  | pressFeatureItem (s : UiState) :
      Step s ⟨true, s.inFlight + 1⟩
  | pressButton (s : UiState) (h : s.isProcessing = false) :
      Step s ⟨true, s.inFlight + 1⟩
  | complete (s : UiState) (h : 0 < s.inFlight) :
      Step s ⟨false, s.inFlight - 1⟩

/-- The states reachable from the initial render (flag down, nothing in
flight) by user-triggered steps. -/
inductive Reachable : UiState → Prop
  | init : Reachable ⟨false, 0⟩
  | step {s s' : UiState} : Reachable s → Step s s' → Reachable s'

/-- A concrete success response, used where a theorem is only about the
request side of an HttpClient call. -/
def sampleOkResponse : HttpResponse :=
  ⟨200, "OK", "{}", none⟩

/-! ## Helper lemmas -/

theorem data_slash_append (e : String) : ("/" ++ e).data = '/' :: e.data := by
  rw [String.data_append]
  rfl

theorem startsWithSlash_slash_append (e : String) : startsWithSlash ("/" ++ e) = true := by
  simp [startsWithSlash, data_slash_append]

theorem sliceOne_slash_append (e : String) : sliceOne ("/" ++ e) = e := by
  cases e with
  | mk d => simp only [sliceOne, data_slash_append, List.drop_succ_cons, List.drop_zero]

/-! ## Claim C4 -/

/-- C4: for every endpoint string, the request URL is the base joined with
the normalized relative path by exactly one slash: when the remainder e
does not itself begin with a slash, both e and the slash-prefixed form
address base, one slash, e, so get with and without the leading slash
hit the same URL. -/
theorem C4_url_join (base e : String) (h : startsWithSlash e = false) :
    buildUrl base e = base ++ "/" ++ e ∧
    buildUrl base ("/" ++ e) = buildUrl base e ∧
    (HttpClient.get base ("/" ++ e) sampleOkResponse).1.url =
      (HttpClient.get base e sampleOkResponse).1.url := by
  have h1 : buildUrl base e = base ++ "/" ++ e := by
    simp [buildUrl, h]
  have h2 : buildUrl base ("/" ++ e) = base ++ "/" ++ e := by
    simp [buildUrl, startsWithSlash_slash_append, sliceOne_slash_append]
  exact ⟨h1, h2.trans h1.symm, by simp [HttpClient.get, h1, h2]⟩

/-- C4 witness: the concrete endpoints x and slash-x produce the same URL. -/
theorem C4_url_join_witness :
    buildUrl "http://localhost:8000" "boats/search" =
      "http://localhost:8000" ++ "/" ++ "boats/search" ∧
    buildUrl "http://localhost:8000" ("/" ++ "boats/search") =
      buildUrl "http://localhost:8000" "boats/search" ∧
    (HttpClient.get "http://localhost:8000" ("/" ++ "boats/search") sampleOkResponse).1.url =
      (HttpClient.get "http://localhost:8000" "boats/search" sampleOkResponse).1.url :=
  C4_url_join "http://localhost:8000" "boats/search" (by decide)

/-! ## Claim C1 -/

/-- The error message claim C1 predicts, following the claim text: the
server-supplied detail field when the error body parses as JSON and
contains one, and otherwise the status line. -/
def claimC1Message (r : HttpResponse) : String :=
  match r.errorBody with
  | some b =>
    match b.detail with
    | some d => d
    | none => statusLine r
  | none => statusLine r

/-- A concrete 404 whose JSON error body has a message field but no detail
field. -/
def resp404 : HttpResponse :=
  ⟨404, "Not Found", "", some ⟨none, some "boat not found"⟩⟩

/-- C1 counterexample: on a 404 whose error body carries only a message
field, the code throws that message, while the claim predicts the status
line, so the claim as stated is false. -/
theorem C1_counterexample :
    responseOk resp404 = false ∧
    makeRequest resp404 = Except.error "boat not found" ∧
    claimC1Message resp404 = "HTTP 404: Not Found" ∧
    errorMessageOf resp404 ≠ claimC1Message resp404 := by
  refine ⟨rfl, rfl, by decide, by decide⟩

/-- C1 amended: on a non-success status every entry point throws the
extracted message, which is the detail field when present and non-empty,
else the message field when present and non-empty, else the status
line (also when the body does not parse as JSON). -/
theorem C1_error_message (base endpoint jsonBody : String)
    (fd : List (String × FormValue)) (r : HttpResponse)
    (h : responseOk r = false) :
    ((HttpClient.get base endpoint r).2 = Except.error (errorMessageOf r) ∧
     (HttpClient.post base endpoint jsonBody r).2 = Except.error (errorMessageOf r) ∧
     (HttpClient.uploadFile base endpoint fd r).2 = Except.error (errorMessageOf r)) ∧
    (∀ b d, r.errorBody = some b → b.detail = some d → d ≠ "" →
       errorMessageOf r = d) ∧
    (∀ b m, r.errorBody = some b → (b.detail = none ∨ b.detail = some "") →
       b.message = some m → m ≠ "" → errorMessageOf r = m) ∧
    (∀ b, r.errorBody = some b → (b.detail = none ∨ b.detail = some "") →
       (b.message = none ∨ b.message = some "") → errorMessageOf r = statusLine r) ∧
    (r.errorBody = none → errorMessageOf r = statusLine r) := by
  refine ⟨⟨?_, ?_, ?_⟩, ?_, ?_, ?_, ?_⟩
  · simp [HttpClient.get, makeRequest, h]
  · simp [HttpClient.post, makeRequest, h]
  · simp [HttpClient.uploadFile, makeRequest, h]
  · intro b d hb hd hne
    simp [errorMessageOf, hb, hd, jsOr, hne]
  · intro b m hb hd hm hne
    rcases hd with hd | hd <;> simp [errorMessageOf, hb, hd, hm, jsOr, hne]
  · intro b hb hd hm
    rcases hd with hd | hd <;> rcases hm with hm | hm <;>
      simp [errorMessageOf, hb, hd, hm, jsOr]
  · intro hb
    simp [errorMessageOf, hb]

/-- C1 witness: a concrete 500 whose body has a non-empty detail field
throws exactly that detail text. -/
theorem C1_error_message_witness :
    errorMessageOf ⟨500, "Internal Server Error", "", some ⟨some "upload failed", none⟩⟩ =
      "upload failed" :=
  (C1_error_message "b" "e" "{}" []
      ⟨500, "Internal Server Error", "", some ⟨some "upload failed", none⟩⟩
      (by decide)).2.1 ⟨some "upload failed", none⟩ "upload failed" rfl rfl (by decide)

/-! ## Claim C9 -/

/-- C9: an empty-string make or boatType filter is omitted from the query
exactly as if it were absent, while isBoat set to false still serializes,
as the pair is_boat, false, whose query-string rendering is the literal
is_boat=false. -/
theorem C9_truthiness_filters (page perPage : Nat) (f : Filters) :
    getIdentificationsParams page perPage ⟨f.isBoat, some "", f.boatType, f.confidence⟩ =
      getIdentificationsParams page perPage ⟨f.isBoat, none, f.boatType, f.confidence⟩ ∧
    getIdentificationsParams page perPage ⟨f.isBoat, f.make, some "", f.confidence⟩ =
      getIdentificationsParams page perPage ⟨f.isBoat, f.make, none, f.confidence⟩ ∧
    ("is_boat", "false") ∈
      getIdentificationsParams page perPage ⟨some false, f.make, f.boatType, f.confidence⟩ ∧
    formEncode "is_boat" ++ "=" ++ formEncode "false" = "is_boat=false" := by
  refine ⟨by simp [getIdentificationsParams], by simp [getIdentificationsParams], ?_, by decide⟩
  simp [getIdentificationsParams, boolToStr]

/-! ## Claim C7 -/

/-- C7: identifyBoat issues one POST to boats/identify whose multipart body
has exactly the three fields image, requested_fields (the field names
joined with commas) and store_results (the flag rendered as a string). -/
theorem C7_multipart_upload (base imageUri ts : String) (fields : List String)
    (store : Bool) :
    (identifyBoat base imageUri ts fields store).method = "POST" ∧
    (identifyBoat base imageUri ts fields store).url = buildUrl base "boats/identify" ∧
    (identifyBoat base imageUri ts fields store).jsonBody = none ∧
    (identifyBoat base imageUri ts fields store).formBody =
      some (createFormData imageUri ts fields store) ∧
    (createFormData imageUri ts fields store).map Prod.fst =
      ["image", "requested_fields", "store_results"] ∧
    (∀ v, ("requested_fields", v) ∈ createFormData imageUri ts fields store ↔
      v = FormValue.str (String.intercalate "," fields)) ∧
    (∀ v, ("store_results", v) ∈ createFormData imageUri ts fields store ↔
      v = FormValue.str (boolToStr store)) ∧
    (∀ v, ("image", v) ∈ createFormData imageUri ts fields store ↔
      v = FormValue.file imageUri "image/jpeg"
        ("boat_image_" ++ sanitizeTimestamp ts ++ ".jpg")) := by
  refine ⟨rfl, rfl, rfl, rfl, rfl, ?_, ?_, ?_⟩ <;> intro v <;>
    simp +decide [createFormData, eq_comm]

/-- C7 witness: the store flag true appears as the string field
store_results, true. -/
theorem C7_multipart_upload_witness :
    ("store_results", FormValue.str "true") ∈
      createFormData "file:///cap.jpg" "2025-01-01T00:00:00Z" ["make"] true :=
  ((C7_multipart_upload "b" "file:///cap.jpg" "2025-01-01T00:00:00Z" ["make"]
      true).2.2.2.2.2.2.1 (FormValue.str "true")).mpr rfl

/-! ## Claim C6 -/

theorem applySuccesses_history (rs : List BoatIdentificationResponse) :
    ∀ st : AppState, (applySuccesses st rs).history = rs.reverse ++ st.history := by
  induction rs with
  | nil => intro st; simp [applySuccesses]
  | cons r rs ih =>
    intro st
    have h1 : applySuccesses st (r :: rs) =
        applySuccesses ⟨⟨false, some r⟩, r :: st.history⟩ rs := rfl
    rw [h1, ih]
    simp

/-- C6: a successful identification becomes lastResult and is prepended to
the history; every older entry keeps its value, shifted one place down,
and a whole run of successes leaves the history ordered
most-recent-first. -/
theorem C6_history_prepend (st : AppState) (uri : String)
    (r : BoatIdentificationResponse) (rs : List BoatIdentificationResponse) :
    (handleCameraPress st (some uri) (Except.ok r)).history = r :: st.history ∧
    (handleCameraPress st (some uri) (Except.ok r)).hook.lastResult = some r ∧
    (handleCameraPress st (some uri) (Except.ok r)).history.head? = some r ∧
    (∀ i, (handleCameraPress st (some uri) (Except.ok r)).history[i + 1]? =
      st.history[i]?) ∧
    (applySuccesses st rs).history = rs.reverse ++ st.history := by
  refine ⟨rfl, rfl, rfl, fun i => ?_, applySuccesses_history rs st⟩
  have h1 : (handleCameraPress st (some uri) (Except.ok r)).history = r :: st.history := rfl
  rw [h1]
  simp

/-! ## Claim C8 -/

/-- C8: when the camera returns no image or the identification call throws,
captureAndIdentify rethrows an error, lastResult keeps its previous
value and the history gains no entry. -/
theorem C8_failure_preserves_state (st : AppState) (camera : Option String)
    (api : Except String BoatIdentificationResponse)
    (h : camera = none ∨ ∃ e, api = Except.error e) :
    (∃ e, (captureAndIdentify st.hook camera api).1 = Except.error e) ∧
    (captureAndIdentify st.hook camera api).2.lastResult = st.hook.lastResult ∧
    (captureAndIdentify st.hook camera api).2.isProcessing = false ∧
    (handleCameraPress st camera api).history = st.history := by
  rcases h with h | ⟨e, h⟩
  · subst h
    exact ⟨⟨"No image captured", rfl⟩, rfl, rfl, rfl⟩
  · subst h
    cases camera with
    | none => exact ⟨⟨"No image captured", rfl⟩, rfl, rfl, rfl⟩
    | some u => exact ⟨⟨e, rfl⟩, rfl, rfl, rfl⟩

/-- A concrete identification response used by witnesses. -/
def sampleResponse : BoatIdentificationResponse :=
  ⟨true, some 1, "boat.jpg", true, none, some "high", none⟩

/-- C8 witness: a failed camera capture leaves an empty history empty and
lastResult untouched. -/
theorem C8_failure_preserves_state_witness :
    (∃ e, (captureAndIdentify (⟨false, none⟩ : HookState) none
      (Except.ok sampleResponse)).1 = Except.error e) ∧
    (captureAndIdentify (⟨false, none⟩ : HookState) none
      (Except.ok sampleResponse)).2.lastResult = none ∧
    (captureAndIdentify (⟨false, none⟩ : HookState) none
      (Except.ok sampleResponse)).2.isProcessing = false ∧
    (handleCameraPress ⟨⟨false, none⟩, []⟩ none (Except.ok sampleResponse)).history = [] :=
  C8_failure_preserves_state ⟨⟨false, none⟩, []⟩ none (Except.ok sampleResponse) (Or.inl rfl)

/-! ## Claim C3 -/

/-- C3: the guarantee fails on the code. FeatureItem ignores the disabled
value App.tsx passes it, so pressing the Identify Boat row while the
flag is up and an upload is running starts a second upload: the state
with the flag up and two uploads in flight is reachable by
user-triggered steps, and the hook itself runs the upload regardless of
the flag already being true. -/
theorem C3_two_uploads_reachable :
    Reachable ⟨true, 2⟩ ∧
    (captureAndIdentify ⟨true, none⟩ (some "file:///cap.jpg")
      (Except.ok sampleResponse)).1 = Except.ok sampleResponse := by
  refine ⟨?_, rfl⟩
  exact Reachable.step
    (Reachable.step Reachable.init (Step.pressFeatureItem ⟨false, 0⟩))
    (Step.pressFeatureItem ⟨true, 1⟩)

/-! ## Claim C5 -/

/-- A concrete response whose boat details lack only the description. -/
def noDescription : BoatIdentificationResponse :=
  ⟨true, some 7, "img.jpg", true,
    some ⟨some "Sea Ray", some "Sundancer", none, some "2015", none,
      some "Cruiser", none, none⟩,
    some "high", none⟩

/-- C5 counterexample: an absent description is rendered as the empty string
in the success alert and as No description in the last-identification
alert, not as the Unknown placeholder the claim predicts. -/
theorem C5_counterexample :
    detailOf noDescription BoatDetails.description = none ∧
    cameraDescription noDescription = "" ∧
    histDescription noDescription = "No description" ∧
    cameraDescription noDescription ≠ "Unknown" ∧
    histDescription noDescription ≠ "Unknown" := by
  exact ⟨rfl, rfl, rfl, by decide, by decide⟩

/-- C5 amended: absent make, model, boat_type, year and confidence render as
the Unknown placeholder; an absent description instead renders as the
empty string in the success alert and as No description in the
last-identification alert. -/
theorem C5_unknown_rendering (r : BoatIdentificationResponse) :
    (detailOf r BoatDetails.make = none →
      cameraMake r = "Unknown" ∧ histMake r = "Unknown") ∧
    (detailOf r BoatDetails.model = none →
      cameraModel r = "Unknown" ∧ histModel r = "Unknown") ∧
    (detailOf r BoatDetails.boat_type = none →
      cameraType r = "Unknown" ∧ histType r = "Unknown") ∧
    (detailOf r BoatDetails.year = none → cameraYear r = "Unknown") ∧
    (r.confidence = none →
      cameraConfidence r = "Unknown" ∧ histConfidence r = "Unknown") ∧
    (detailOf r BoatDetails.description = none →
      cameraDescription r = "" ∧ histDescription r = "No description") := by
  refine ⟨?_, ?_, ?_, ?_, ?_, ?_⟩ <;> intro h <;>
    simp [cameraMake, histMake, cameraModel, histModel, cameraType, histType,
      cameraYear, cameraConfidence, histConfidence, cameraDescription,
      histDescription, jsOr, h]

/-- A concrete response with no details at all. -/
def allAbsent : BoatIdentificationResponse :=
  ⟨true, none, "x.jpg", true, none, none, none⟩

/-- C5 witness: with every optional field absent, the slots render as the
amended claim states. -/
theorem C5_unknown_rendering_witness :
    cameraMake allAbsent = "Unknown" ∧ cameraYear allAbsent = "Unknown" ∧
    cameraConfidence allAbsent = "Unknown" ∧ cameraDescription allAbsent = "" ∧
    histDescription allAbsent = "No description" :=
  ⟨((C5_unknown_rendering allAbsent).1 rfl).1,
   (C5_unknown_rendering allAbsent).2.2.2.1 rfl,
   ((C5_unknown_rendering allAbsent).2.2.2.2.1 rfl).1,
   ((C5_unknown_rendering allAbsent).2.2.2.2.2 rfl).1,
   ((C5_unknown_rendering allAbsent).2.2.2.2.2 rfl).2⟩

/-! ## Claim C2 -/

/-- A filter record whose make field is provided but empty. -/
def emptyMakeFilters : Filters := ⟨none, some "", none, none⟩

/-- C2 counterexample: with the make filter provided as the empty string the
query contains no make parameter, though the claim requires one exactly
when the field is provided. -/
theorem C2_counterexample :
    emptyMakeFilters.make = some "" ∧
    ("make", "") ∉ getIdentificationsParams 1 50 emptyMakeFilters := by
  exact ⟨rfl, by decide⟩

/-- C2 amended: page and per_page are always serialized from the inputs;
is_boat appears exactly when isBoat is provided and confidence exactly
when that filter is provided; make and boat_type appear exactly when the
string filter is provided and non-empty, serialized from the filter
value. -/
theorem C2_query_parameters (page perPage : Nat) (f : Filters) :
    (("page", Nat.repr page) ∈ getIdentificationsParams page perPage f) ∧
    (("per_page", Nat.repr perPage) ∈ getIdentificationsParams page perPage f) ∧
    (∀ v, ("is_boat", v) ∈ getIdentificationsParams page perPage f ↔
       ∃ b, f.isBoat = some b ∧ v = boolToStr b) ∧
    (∀ v, ("make", v) ∈ getIdentificationsParams page perPage f ↔
       f.make = some v ∧ v ≠ "") ∧
    (∀ v, ("boat_type", v) ∈ getIdentificationsParams page perPage f ↔
       f.boatType = some v ∧ v ≠ "") ∧
    (∀ v, ("confidence", v) ∈ getIdentificationsParams page perPage f ↔
       ∃ c, f.confidence = some c ∧ v = Confidence.toStr c) := by
  obtain ⟨ib, mk, bt, cf⟩ := f
  refine ⟨?_, ?_, ?_, ?_, ?_, ?_⟩ <;>
    [skip; skip; intro v; intro v; intro v; intro v] <;>
    cases ib <;> cases mk <;> cases bt <;> cases cf <;>
    simp +decide [getIdentificationsParams] <;> aesop

/-- C2 witness: the concrete filter isBoat false with confidence high yields
an is_boat parameter serialized as false. -/
theorem C2_query_parameters_witness :
    ("is_boat", "false") ∈
      getIdentificationsParams 2 10 ⟨some false, none, none, some Confidence.high⟩ :=
  ((C2_query_parameters 2 10 ⟨some false, none, none, some Confidence.high⟩).2.2.1
    "false").mpr ⟨false, rfl, rfl⟩

/-! ## Claim C10 -/

theorem head?_dropWhile (p : Char → Bool) (l : List Char) (c : Char)
    (h : (l.dropWhile p).head? = some c) : p c = false := by
  induction l with
  | nil => simp [List.dropWhile] at h
  | cons x xs ih =>
    by_cases hp : p x
    · rw [List.dropWhile_cons_of_pos hp] at h
      exact ih h
    · rw [List.dropWhile_cons_of_neg hp] at h
      simp at h
      subst h
      simpa using hp

theorem jsTrim_data (s : String) :
    (jsTrim s).data =
      ((s.data.dropWhile isJsSpace).reverse.dropWhile isJsSpace).reverse := rfl

theorem jsTrim_decomposition (s : String) :
    ∃ a b, s.data = a ++ (jsTrim s).data ++ b ∧
      (∀ c ∈ a, isJsSpace c = true) ∧ (∀ c ∈ b, isJsSpace c = true) := by
  set p := isJsSpace
  set q := s.data with hq
  set t := q.dropWhile p with ht
  refine ⟨q.takeWhile p, (t.reverse.takeWhile p).reverse, ?_, ?_, ?_⟩
  · rw [jsTrim_data]
    have h1 : q.takeWhile p ++ t = q := List.takeWhile_append_dropWhile p q
    have h2 : t.reverse.takeWhile p ++ t.reverse.dropWhile p = t.reverse :=
      List.takeWhile_append_dropWhile p t.reverse
    calc q = q.takeWhile p ++ t := h1.symm
    _ = q.takeWhile p ++ (t.reverse).reverse := by rw [List.reverse_reverse]
    _ = q.takeWhile p ++ (t.reverse.takeWhile p ++ t.reverse.dropWhile p).reverse := by
        rw [h2]
    _ = q.takeWhile p ++
        ((t.reverse.dropWhile p).reverse ++ (t.reverse.takeWhile p).reverse) := by
        rw [List.reverse_append]
    _ = q.takeWhile p ++ (t.reverse.dropWhile p).reverse ++
        (t.reverse.takeWhile p).reverse := by
        rw [List.append_assoc]
  · intro c hc
    exact List.mem_takeWhile_imp hc
  · intro c hc
    rw [List.mem_reverse] at hc
    exact List.mem_takeWhile_imp hc

theorem jsTrim_head (s : String) (c : Char)
    (h : (jsTrim s).data.head? = some c) : isJsSpace c = false := by
  set p := isJsSpace
  set t := s.data.dropWhile p with ht
  rw [jsTrim_data] at h
  rw [List.head?_reverse] at h
  have hne : t.reverse.dropWhile p ≠ [] := by
    intro hnil
    rw [hnil] at h
    simp at h
  have h2 : t.reverse.takeWhile p ++ t.reverse.dropWhile p = t.reverse :=
    List.takeWhile_append_dropWhile p t.reverse
  have h3 : t.reverse.getLast? = some c := by
    rw [← h2, List.getLast?_append_of_ne_nil _ hne]
    exact h
  rw [List.getLast?_reverse] at h3
  exact head?_dropWhile p s.data c h3

theorem jsTrim_getLast (s : String) (c : Char)
    (h : (jsTrim s).data.getLast? = some c) : isJsSpace c = false := by
  set p := isJsSpace
  rw [jsTrim_data, List.getLast?_reverse] at h
  exact head?_dropWhile p _ c h

/-- C10: searchBoats sends a GET to boats/search whose q parameter is the
query with exactly the leading and trailing whitespace removed, and
always includes a limit parameter, which is 50 when the call leaves the
default in place. -/
theorem C10_search_serialization (base query : String) (limit : Nat) :
    (searchBoats base query limit).method = "GET" ∧
    (searchBoats base query limit).url =
      buildUrl base ("boats/search?" ++ renderQuery (searchBoatsParams query limit)) ∧
    searchBoatsParams query limit = [("q", jsTrim query), ("limit", Nat.repr limit)] ∧
    searchBoatsDefault base query = searchBoats base query 50 ∧
    (∃ a b, query.data = a ++ (jsTrim query).data ++ b ∧
      (∀ c ∈ a, isJsSpace c = true) ∧ (∀ c ∈ b, isJsSpace c = true)) ∧
    (∀ c, (jsTrim query).data.head? = some c → isJsSpace c = false) ∧
    (∀ c, (jsTrim query).data.getLast? = some c → isJsSpace c = false) := by
  exact ⟨rfl, rfl, rfl, rfl, jsTrim_decomposition query,
    fun c h => jsTrim_head query c h, fun c h => jsTrim_getLast query c h⟩

/-- C10 witness: a padded concrete query is trimmed and the default limit 50
is serialized. -/
theorem C10_search_serialization_witness :
    searchBoatsParams "  sailboat " 50 = [("q", "sailboat"), ("limit", "50")] := by
  have h := (C10_search_serialization "http://localhost:8000" "  sailboat " 50).2.2.1
  rw [h]
  decide

end BoatId
